import Mathlib

/-!
Shallow embedding of the `linkbudget` package (calc.py, pointing.py, main.py)
over real arithmetic, together with theorems settling the spec claims.

Machine floats are modelled by `ℝ`; Python exceptions (`ValueError`,
`AssertionError`, `TypeError`, `IndexError`) by `Except String`.
-/

set_option autoImplicit false

namespace LinkBudget

open Real

noncomputable section

/-! ### calc.py -/

def SPEED_OF_LIGHT : ℝ := 299792458

def T0 : ℝ := 290

/-- Modelled from the spec: `util.db_to_abs` (the module `util` is not in the
repository sources; the spec uses the conversion `10^(x/10)` from dB to linear
units throughout, e.g. `10^(snrDb/10)` in the capacity formula). -/
def db_to_abs (x : ℝ) : ℝ := (10 : ℝ) ^ (x / 10)

/-- Modelled from the spec: `util.abs_to_db` (the module `util` is not in the
repository sources; the spec converts linear units to dB as `10·log10`). -/
def abs_to_db (x : ℝ) : ℝ := 10 * Real.logb 10 x

/-- `calc.eirp` -/
def eirp (tx_power tx_dish_gain : ℝ) : ℝ := tx_power + tx_dish_gain

/-- `calc.path_loss`.  Missing optional arguments (`rcs`, `d_rx`) are `none`;
the `ValueError` branches return `Except.error`. -/
def path_loss (d freq : ℝ) (radar : Bool := false) (rcs : Option ℝ := none)
    (bistatic : Bool := false) (d_rx : Option ℝ := none) : Except String ℝ :=
  let wavelength := SPEED_OF_LIGHT / freq
  let Lfs_one_way_db := 20 * Real.logb 10 (4 * π * d / wavelength)
  if radar then
    match rcs with
    | none => .error "Radar cross section required in radar mode"
    | some rcs =>
      let G_obj_db := 10 * Real.logb 10 (4 * π * rcs / wavelength ^ 2)
      if bistatic then
        match d_rx with
        | none => .error "Rx distance required in bistatic radar mode"
        | some d_rx =>
          let Lfs_tx_db := Lfs_one_way_db
          let Lfs_rx_db := 20 * Real.logb 10 (4 * π * d_rx / wavelength)
          .ok (Lfs_tx_db + Lfs_rx_db - G_obj_db)
      else
        .ok (2 * Lfs_one_way_db - G_obj_db)
  else
    .ok Lfs_one_way_db

/-- `calc.dish_gain` -/
def dish_gain (diameter freq : ℝ) : ℝ :=
  let radius := diameter / 2
  let face_area := π * radius ^ 2
  let wavelength := SPEED_OF_LIGHT / freq
  let gain := 7 * face_area / wavelength ^ 2
  10 * Real.logb 10 gain

/-- `calc.coax_loss_nf`: returns the pair (loss dB, noise figure dB). -/
def coax_loss_nf (length_ft : ℝ) (Tl : ℝ := T0) : ℝ × ℝ :=
  let loss_db_per_ft : ℝ := 8 / 100
  let loss_db := length_ft * loss_db_per_ft
  let loss := db_to_abs loss_db
  let noise_factor := 1 + (Tl / T0) * (loss - 1)
  let noise_fig := 10 * Real.logb 10 noise_factor
  (loss_db, noise_fig)

/-- The `for i, nf in enumerate(nfs[1:])` loop of `calc.total_noise_figure`:
state `(F, G_prod)`, stepping through the tail noise figures paired with the
gains; exhausting `gains` first is Python's `IndexError` (`none`). -/
def friisLoop : ℝ → ℝ → List ℝ → List ℝ → Option ℝ
  | F, _, [], _ => some F
  | _, _, _ :: _, [] => none
  | F, G_prod, nf :: nfs, g :: gains =>
    friisLoop (F + (db_to_abs nf - 1) / (G_prod * db_to_abs g))
      (G_prod * db_to_abs g) nfs gains

/-- `calc.total_noise_figure`.  The three `assert` statements are embedded in
source order as `Except.error "AssertionError"` branches. -/
def total_noise_figure (nfs gains : List ℝ) : Except String ℝ :=
  if ¬ 0 < nfs.length then .error "AssertionError"
  else if ¬ 0 < gains.length then .error "AssertionError"
  else if ¬ gains.length = nfs.length - 1 then .error "AssertionError"
  else if nfs.length = 1 then .ok (nfs.headD 0)
  else
    match friisLoop (db_to_abs (nfs.headD 0)) 1 nfs.tail gains with
    | some F => .ok (10 * Real.logb 10 F)
    | none => .error "IndexError"

/-- `calc.noise_fig_to_noise_temp` -/
def noise_fig_to_noise_temp (nf : ℝ) : ℝ :=
  let nf_abs := db_to_abs nf
  T0 * (nf_abs - 1)

/-- `calc.noise_temp_to_noise_fig` -/
def noise_temp_to_noise_fig (Te : ℝ) : ℝ :=
  let nf_abs := 1 + Te / T0
  10 * Real.logb 10 nf_abs

/-- `calc.rx_sys_noise_temp` -/
def rx_sys_noise_temp (Tar Te : ℝ) : ℝ := Tar + Te

/-- `calc.cnr` -/
def cnr (eirp_db path_loss_db rx_ant_gain_db T_sys_db bw : ℝ) : ℝ :=
  let k_db : ℝ := -228.6
  let bw_db := 10 * Real.logb 10 bw
  let g_over_t_db := rx_ant_gain_db - T_sys_db
  eirp_db - path_loss_db + g_over_t_db - k_db - bw_db

/-- `calc.capacity` -/
def capacity (snr_db bw : ℝ) : ℝ :=
  let snr := db_to_abs snr_db
  bw * Real.logb 2 (1 + snr)

/-! ### pointing.py -/

/-- Python `math.radians` -/
def radians (x : ℝ) : ℝ := x * (π / 180)

/-- Python `math.degrees` -/
def degrees (x : ℝ) : ℝ := x * (180 / π)

/-- Python `math.atan2` (standard quadrant-aware arctangent; `atan2 0 0 = 0`). -/
def atan2 (y x : ℝ) : ℝ :=
  if 0 < x then Real.arctan (y / x)
  else if x < 0 then
    (if 0 ≤ y then Real.arctan (y / x) + π else Real.arctan (y / x) - π)
  else
    (if 0 < y then π / 2 else if y < 0 then -(π / 2) else 0)

/-- Python's float `%` operation for a positive modulus: `x - m*⌊x/m⌋`. -/
def fmod (x m : ℝ) : ℝ := x - m * ⌊x / m⌋

/-- `pointing._look_angles_ellipsoidal`: returns the triple
(elevation deg, azimuth deg, slant range m).  The 3-vector operations of the
source (`np.array` subtraction, `np.dot` with the 3×3 rotation matrix,
`np.linalg.norm`) are written out componentwise. -/
def look_angles_ellipsoidal (sat_long₀ rx_long₀ rx_lat₀ : ℝ) (rx_height : ℝ := 0)
    (sat_alt : ℝ := 35786e3) : ℝ × ℝ × ℝ :=
  let sat_long := radians sat_long₀
  let rx_long := radians rx_long₀
  let rx_lat := radians rx_lat₀
  let f_inv : ℝ := 298.257222100882711
  let f := 1 / f_inv
  let e_sq := 2 * f - f ^ 2
  let R_eq : ℝ := 6378.137e3
  let r := R_eq + sat_alt
  let N := R_eq / Real.sqrt (1 - e_sq * Real.sin rx_lat ^ 2)
  let Ng : ℝ := 0
  let h := Ng + rx_height
  let x_p := (N + h) * Real.cos rx_long * Real.cos rx_lat
  let y_p := (N + h) * Real.sin rx_long * Real.cos rx_lat
  let z_p := (N * (1 - e_sq) + h) * Real.sin rx_lat
  let x_s := r * Real.cos sat_long
  let y_s := r * Real.sin sat_long
  let z_s : ℝ := 0
  let cx := x_s - x_p
  let cy := y_s - y_p
  let cz := z_s - z_p
  let slant_range := Real.sqrt (cx ^ 2 + cy ^ 2 + cz ^ 2)
  let e := -Real.sin rx_long * cx + Real.cos rx_long * cy + 0 * cz
  let n := -Real.sin rx_lat * Real.cos rx_long * cx
    + (-Real.sin rx_lat * Real.sin rx_long) * cy + Real.cos rx_lat * cz
  let u := Real.cos rx_lat * Real.cos rx_long * cx
    + Real.cos rx_lat * Real.sin rx_long * cy + Real.sin rx_lat * cz
  let azimuth := atan2 e n
  let vert_angle := Real.arctan (u / Real.sqrt (e ^ 2 + n ^ 2))
  let azimuth_degrees := fmod (degrees azimuth) 360
  let elevation_degrees := degrees vert_angle
  (elevation_degrees, azimuth_degrees, slant_range)

/-- `pointing._look_angles_spherical`: returns the triple
(elevation deg, azimuth deg, slant range m). -/
def look_angles_spherical (sat_long₀ rx_long₀ rx_lat₀ : ℝ)
    (sat_alt : ℝ := 35786e3) : ℝ × ℝ × ℝ :=
  let sat_long := radians sat_long₀
  let rx_long := radians rx_long₀
  let rx_lat := radians rx_lat₀
  let R : ℝ := 6371e3
  let R_eq : ℝ := 6378.137e3
  let r := R_eq + sat_alt
  let cos_gamma := Real.cos rx_lat * Real.cos (sat_long - rx_long)
  let gamma := Real.arccos cos_gamma
  let d := r * Real.sqrt (1 + (R / r) ^ 2 - 2 * (R / r) * cos_gamma)
  let z := Real.arcsin ((r / d) * Real.sin gamma)
  let v := 90 - degrees z
  let beta := degrees (Real.arccos (Real.tan rx_lat / Real.tan gamma))
  let alpha :=
    if 0 < rx_lat then
      (if sat_long < rx_long then 180 + beta else 180 - beta)
    else
      (if sat_long < rx_long then 360 - beta else beta)
  (v, alpha, d)

/-- `pointing.look_angles`: dispatches on the `implementation` string. -/
def look_angles (sat_long rx_long rx_lat : ℝ) (sat_alt : ℝ := 35786e3)
    (implementation : String := "ellipsoidal") : ℝ × ℝ × ℝ :=
  if implementation = "ellipsoidal" then
    look_angles_ellipsoidal sat_long rx_long rx_lat 0 sat_alt
  else
    look_angles_spherical sat_long rx_long rx_lat sat_alt

/-! ### main.py -/

/-- The argparse namespace consumed by `main.analyze`: optional command-line
arguments are `Option ℝ`, the two store-true flags are `Bool`.  The `--json`
flag and `--sat-lat` only affect logging/output formatting and are omitted. -/
structure Args where
  eirp : Option ℝ
  tx_power : Option ℝ
  tx_dish_size : Option ℝ
  tx_dish_gain : Option ℝ
  freq : ℝ
  if_bw : ℝ
  rx_dish_size : Option ℝ
  rx_dish_gain : Option ℝ
  antenna_noise_temp : ℝ
  lnb_noise_fig : Option ℝ
  lnb_noise_temp : Option ℝ
  lnb_gain : ℝ
  coax_length : ℝ
  rx_noise_fig : ℝ
  sat_long : ℝ
  rx_long : ℝ
  rx_lat : ℝ
  radar : Bool
  radar_alt : Option ℝ
  radar_cross_section : Option ℝ
  radar_bistatic : Bool

/-- Using a `None` argument where Python needs a number raises `TypeError`;
this extracts the value or produces that error. -/
def reqNum (x : Option ℝ) : Except String ℝ :=
  match x with
  | some v => .ok v
  | none => .error "TypeError"

/-- The result dictionary assembled by `main.analyze`. -/
structure AnalyzeResult where
  elevation : ℝ
  azimuth : ℝ
  slant_range : ℝ
  eirp_db : ℝ
  path_loss_db : ℝ
  rx_dish_gain_db : ℝ
  noise_fig_lnb : ℝ
  noise_fig_coax : ℝ
  noise_fig_total : ℝ
  noise_temp_effective_input : ℝ
  noise_temp_system : ℝ
  cnr_db : ℝ
  capacity_bps : ℝ

/-- The `if args.eirp is None` block of `main.analyze`: resolve the EIRP from
either the direct `--eirp` or `--tx-power` plus a dish size or gain. -/
def resolve_eirp (args : Args) : Except String ℝ :=
  match args.eirp with
  | some e => .ok e
  | none =>
    let tx_gain : Except String ℝ :=
      match args.tx_dish_gain with
      | some g => .ok g
      | none => do
        let sz ← reqNum args.tx_dish_size
        pure (dish_gain sz args.freq)
    do
      let g ← tx_gain
      let p ← reqNum args.tx_power
      pure (eirp p g)

/-- The `if args.rx_dish_gain is None` block of `main.analyze`. -/
def resolve_rx_dish_gain (args : Args) : Except String ℝ :=
  match args.rx_dish_gain with
  | some g => .ok g
  | none => do
    let sz ← reqNum args.rx_dish_size
    pure (dish_gain sz args.freq)

/-- The `if args.lnb_noise_fig is None` block of `main.analyze`. -/
def resolve_lnb_noise_fig (args : Args) : Except String ℝ :=
  match args.lnb_noise_fig with
  | some nf => .ok nf
  | none => do
    let t ← reqNum args.lnb_noise_temp
    pure (noise_temp_to_noise_fig t)

/-- `main.analyze`: the link-budget orchestration.  Mirrors the source's
data flow; the call to `calc.path_loss` passes positionally
`(slant_range, freq, radar, radar_cross_section, radar_bistatic)` and never
supplies `d_rx` (the bistatic receiver-side distance), which stays `none`. -/
def analyze (args : Args) : Except String AnalyzeResult := do
  let sat_alt ← if args.radar then reqNum args.radar_alt else pure 35786e3
  let la := look_angles args.sat_long args.rx_long args.rx_lat sat_alt
  let elevation := la.1
  let azimuth := la.2.1
  let slant_range := la.2.2
  let eirp_db ← resolve_eirp args
  let path_loss_db ← path_loss slant_range args.freq args.radar
    args.radar_cross_section args.radar_bistatic
  let dish_gain_db ← resolve_rx_dish_gain args
  let coax := coax_loss_nf args.coax_length
  let coax_loss_db := coax.1
  let coax_noise_fig_db := coax.2
  let lnb_noise_fig ← resolve_lnb_noise_fig args
  let noise_fig_db ← total_noise_figure
    [lnb_noise_fig, coax_noise_fig_db, args.rx_noise_fig]
    [args.lnb_gain, -coax_loss_db]
  let effective_input_noise_temp := noise_fig_to_noise_temp noise_fig_db
  let T_syst := rx_sys_noise_temp args.antenna_noise_temp
    effective_input_noise_temp
  let T_syst_db := abs_to_db T_syst
  let cnr_db := cnr eirp_db path_loss_db dish_gain_db T_syst_db args.if_bw
  let capacity_bps := capacity cnr_db args.if_bw
  pure {
    elevation := elevation
    azimuth := azimuth
    slant_range := slant_range
    eirp_db := eirp_db
    path_loss_db := path_loss_db
    rx_dish_gain_db := dish_gain_db
    noise_fig_lnb := lnb_noise_fig
    noise_fig_coax := coax_noise_fig_db
    noise_fig_total := noise_fig_db
    noise_temp_effective_input := effective_input_noise_temp
    noise_temp_system := T_syst
    cnr_db := cnr_db
    capacity_bps := capacity_bps
  }

end

/-! ### Theorems for the claims -/

/-- C1 (code bug exhibit): `total_noise_figure` on the single-stage input
`nfs = [5]`, `gains = []` raises `AssertionError` instead of returning `5`:
the second assertion `assert(len(gains) > 0)` fires, so the function's own
single-stage branch `if len(nfs) == 1: return nfs[0]` is unreachable. -/
theorem total_noise_figure_single_stage_asserts :
    total_noise_figure [(5 : ℝ)] [] = Except.error "AssertionError" := by
  rfl

/-- C7: `noise_temp_to_noise_fig` is a left inverse of
`noise_fig_to_noise_temp`: the round trip through the T0 = 290 K reference
(`T = T0*(F-1)`, `F = 1 + T/T0`, `F = 10^(nf/10)`) returns `nf` exactly over
real arithmetic. -/
theorem noise_fig_noise_temp_round_trip (nf : ℝ) :
    noise_temp_to_noise_fig (noise_fig_to_noise_temp nf) = nf := by
  show 10 * Real.logb 10 (1 + 290 * ((10 : ℝ) ^ (nf / 10) - 1) / 290) = nf
  have h : (1 : ℝ) + 290 * ((10 : ℝ) ^ (nf / 10) - 1) / 290
      = (10 : ℝ) ^ (nf / 10) := by ring
  rw [h, Real.logb_rpow (by norm_num) (by norm_num)]
  ring

/-- C8: `coax_loss_nf L Tl` returns the loss `0.08*L` dB and the noise
figure `10*log10(1 + (Tl/T0)*(10^(lossDb/10) - 1))`; at line temperature
`Tl = T0` the noise figure equals the loss in dB. -/
theorem coax_loss_nf_spec (L Tl : ℝ) :
    (coax_loss_nf L Tl).1 = 0.08 * L ∧
    (coax_loss_nf L Tl).2 =
      10 * Real.logb 10 (1 + (Tl / T0) * ((10 : ℝ) ^ (0.08 * L / 10) - 1)) ∧
    (coax_loss_nf L T0).2 = (coax_loss_nf L T0).1 := by
  have hL : L * (8 / 100) = 0.08 * L := by ring
  refine ⟨by simp only [coax_loss_nf]; ring, ?_, ?_⟩
  · simp only [coax_loss_nf, db_to_abs, hL]
  · simp only [coax_loss_nf, db_to_abs]
    have hT : (1 : ℝ) + T0 / T0 * ((10 : ℝ) ^ (L * (8 / 100) / 10) - 1)
        = (10 : ℝ) ^ (L * (8 / 100) / 10) := by
      unfold T0; ring
    rw [hT, Real.logb_rpow (by norm_num) (by norm_num)]
    ring

/-- C4: `path_loss` computes, with `λ = c/f` and one-way loss
`L(x) = 20*log10(4πx/λ)`: the one-way loss `L(d)` when `radar = false`
(whatever `rcs`, `bistatic`, `d_rx` are), `2*L(d) - G_obj` for monostatic
radar, and `L(d) + L(d_rx) - G_obj` for bistatic radar, where
`G_obj = 10*log10(4π*rcs/λ²)`. -/
theorem path_loss_modes (d f rcs drx : ℝ) (rcsOpt drOpt : Option ℝ) (b : Bool)
    (_hd : 0 < d) (_hf : 0 < f) (_hr : 0 < rcs) :
    path_loss d f false rcsOpt b drOpt =
      Except.ok (20 * Real.logb 10 (4 * π * d / (SPEED_OF_LIGHT / f))) ∧
    path_loss d f true (some rcs) false drOpt =
      Except.ok (2 * (20 * Real.logb 10 (4 * π * d / (SPEED_OF_LIGHT / f)))
        - 10 * Real.logb 10 (4 * π * rcs / (SPEED_OF_LIGHT / f) ^ 2)) ∧
    path_loss d f true (some rcs) true (some drx) =
      Except.ok (20 * Real.logb 10 (4 * π * d / (SPEED_OF_LIGHT / f))
        + 20 * Real.logb 10 (4 * π * drx / (SPEED_OF_LIGHT / f))
        - 10 * Real.logb 10 (4 * π * rcs / (SPEED_OF_LIGHT / f) ^ 2)) := by
  refine ⟨?_, ?_, ?_⟩ <;> rfl

/-- Witness for C4 at `d = f = rcs = d_rx = 1`. -/
theorem path_loss_modes_witness :
    ((0 : ℝ) < 1) ∧
    (path_loss 1 1 false none false none =
      Except.ok (20 * Real.logb 10 (4 * π * 1 / (SPEED_OF_LIGHT / 1))) ∧
    path_loss 1 1 true (some 1) false none =
      Except.ok (2 * (20 * Real.logb 10 (4 * π * 1 / (SPEED_OF_LIGHT / 1)))
        - 10 * Real.logb 10 (4 * π * 1 / (SPEED_OF_LIGHT / 1) ^ 2)) ∧
    path_loss 1 1 true (some 1) true (some 1) =
      Except.ok (20 * Real.logb 10 (4 * π * 1 / (SPEED_OF_LIGHT / 1))
        + 20 * Real.logb 10 (4 * π * 1 / (SPEED_OF_LIGHT / 1))
        - 10 * Real.logb 10 (4 * π * 1 / (SPEED_OF_LIGHT / 1) ^ 2))) :=
  ⟨by norm_num,
    path_loss_modes 1 1 1 1 none none false (by norm_num) (by norm_num)
      (by norm_num)⟩

/-- C5: in radar mode without an RCS, and in bistatic radar mode without the
receiver-side distance, `path_loss` produces no loss value but the
corresponding `ValueError`. -/
theorem path_loss_missing_inputs :
    (∀ (d f : ℝ) (b : Bool) (drOpt : Option ℝ),
      path_loss d f true none b drOpt =
        Except.error "Radar cross section required in radar mode") ∧
    ∀ d f rcs : ℝ,
      path_loss d f true (some rcs) true none =
        Except.error "Rx distance required in bistatic radar mode" :=
  ⟨fun _ _ _ _ => rfl, fun _ _ _ => rfl⟩

/-- C6: whenever the gains list's length differs (as integers, matching
Python's `len(nfs) - 1`) from the noise-figure list's length minus one,
`total_noise_figure` stops at an assertion and returns no cascade value. -/
theorem total_noise_figure_arity (nfs gains : List ℝ)
    (h : (gains.length : ℤ) ≠ (nfs.length : ℤ) - 1) :
    ∃ msg, total_noise_figure nfs gains = Except.error msg := by
  unfold total_noise_figure
  by_cases h1 : 0 < nfs.length
  · by_cases h2 : 0 < gains.length
    · have h3 : ¬ gains.length = nfs.length - 1 := by omega
      rw [if_neg (not_not_intro h1), if_neg (not_not_intro h2), if_pos h3]
      exact ⟨_, rfl⟩
    · rw [if_neg (not_not_intro h1), if_pos h2]
      exact ⟨_, rfl⟩
  · rw [if_pos h1]
    exact ⟨_, rfl⟩

/-- Witness for C6 at `nfs = [1, 2]`, `gains = []`. -/
theorem total_noise_figure_arity_witness :
    ((([] : List ℝ).length : ℤ) ≠ (([1, 2] : List ℝ).length : ℤ) - 1) ∧
    ∃ msg, total_noise_figure [1, 2] [] = Except.error msg :=
  ⟨by simp, total_noise_figure_arity [1, 2] [] (by simp)⟩

/-- If every continuation value errors, the bind errors. -/
theorem bind_always_error {α β : Type} (e : Except String α)
    (k : α → Except String β) (hk : ∀ a, ∃ m, k a = Except.error m) :
    ∃ m, (e >>= k) = Except.error m := by
  cases e with
  | error m => exact ⟨m, rfl⟩
  | ok a => simpa using hk a

/-- A bind on an erroring computation errors. -/
theorem bind_error_of_error {α β : Type} (e : Except String α)
    (k : α → Except String β) (m : String) (h : e = Except.error m) :
    (e >>= k) = Except.error m := by
  rw [h]; rfl

/-- With `bistatic = true` and no `d_rx`, `path_loss` errors whatever the
optional RCS is. -/
theorem path_loss_bistatic_no_drx (d f : ℝ) (rcsOpt : Option ℝ) :
    ∃ m, path_loss d f true rcsOpt true none = Except.error m := by
  cases rcsOpt with
  | none => exact ⟨_, rfl⟩
  | some rcs => exact ⟨_, rfl⟩

/-- C2: `analyze` in radar mode with the bistatic flag set always fails with
an error and produces no result: the orchestration never supplies `d_rx` to
`path_loss`, which rejects bistatic radar requests without a receiver
distance (or, if `rcs` is also missing, rejects those first). -/
theorem analyze_radar_bistatic_fails (args : Args) (hr : args.radar = true)
    (hb : args.radar_bistatic = true) :
    ∃ msg, analyze args = Except.error msg := by
  unfold analyze
  rw [hr, hb]
  refine bind_always_error _ _ fun sat_alt => ?_
  refine bind_always_error _ _ fun eirp_db => ?_
  obtain ⟨m, hm⟩ := path_loss_bistatic_no_drx
    (look_angles args.sat_long args.rx_long args.rx_lat sat_alt).2.2 args.freq
    args.radar_cross_section
  exact ⟨m, bind_error_of_error _ _ m hm⟩

/-- A concrete radar+bistatic argument set for the C2 witness. -/
def bistaticArgs : Args where
  eirp := some 50
  tx_power := none
  tx_dish_size := none
  tx_dish_gain := none
  freq := 1296e6
  if_bw := 1e6
  rx_dish_size := none
  rx_dish_gain := some 35
  antenna_noise_temp := 30
  lnb_noise_fig := some 1
  lnb_noise_temp := none
  lnb_gain := 55
  coax_length := 10
  rx_noise_fig := 8
  sat_long := -95
  rx_long := -97
  rx_lat := 33
  radar := true
  radar_alt := some 400e3
  radar_cross_section := some 10
  radar_bistatic := true

/-- Witness for C2 at `bistaticArgs`. -/
theorem analyze_radar_bistatic_fails_witness :
    bistaticArgs.radar = true ∧ bistaticArgs.radar_bistatic = true ∧
    ∃ msg, analyze bistaticArgs = Except.error msg :=
  ⟨rfl, rfl, analyze_radar_bistatic_fails bistaticArgs rfl rfl⟩

/-- Reading the tail of a list shifts `getD` indices by one. -/
theorem tail_getD (l : List ℝ) (i : ℕ) : l.tail.getD i 0 = l.getD (i + 1) 0 := by
  cases l <;> simp [List.getD]

/-- Closed form of the `total_noise_figure` loop: starting from noise factor
`F` and gain product `g`, it adds `(F_i - 1)` over the running gain product. -/
theorem friisLoop_eq_sum (xs : List ℝ) : ∀ (gs : List ℝ) (F g : ℝ),
    xs.length = gs.length →
    friisLoop F g xs gs = some (F + ∑ i in Finset.range xs.length,
      (db_to_abs (xs.getD i 0) - 1) /
        (g * ∏ j in Finset.range (i + 1), db_to_abs (gs.getD j 0))) := by
  induction xs with
  | nil =>
    intro gs F g _
    simp [friisLoop]
  | cons x xs ih =>
    intro gs F g hlen
    cases gs with
    | nil => simp at hlen
    | cons a gs =>
      have hlen' : xs.length = gs.length := by simpa using hlen
      rw [friisLoop, ih gs _ _ hlen']
      have hprod : ∀ i : ℕ,
          ∏ j in Finset.range (i + 1 + 1), db_to_abs ((a :: gs).getD j 0)
            = db_to_abs a *
              ∏ j in Finset.range (i + 1), db_to_abs (gs.getD j 0) := by
        intro i
        rw [Finset.prod_range_succ']
        simp only [List.getD_cons_succ, List.getD_cons_zero]
        ring
      simp only [Option.some.injEq, List.length_cons]
      rw [Finset.sum_range_succ']
      simp only [List.getD_cons_succ, List.getD_cons_zero, zero_add,
        Finset.prod_range_one, hprod]
      have hsum : ∑ i in Finset.range xs.length,
          (db_to_abs (xs.getD i 0) - 1) /
            (g * (db_to_abs a *
              ∏ j in Finset.range (i + 1), db_to_abs (gs.getD j 0)))
          = ∑ i in Finset.range xs.length,
          (db_to_abs (xs.getD i 0) - 1) /
            (g * db_to_abs a *
              ∏ j in Finset.range (i + 1), db_to_abs (gs.getD j 0)) :=
        Finset.sum_congr rfl fun i _ => by ring
      rw [hsum]
      ring

/-- C3: for a cascade of `N ≥ 2` stages with `N - 1` gains,
`total_noise_figure` returns `10*log10(F)` with
`F = F_1 + Σ_{i=2..N} (F_i - 1)/(G_1*...*G_{i-1})`, where `F_i` and `G_j` are
the linear noise factors and gains; the last stage's gain never enters. -/
theorem total_noise_figure_friis (nfs gains : List ℝ)
    (h2 : 2 ≤ nfs.length) (hg : gains.length = nfs.length - 1) :
    total_noise_figure nfs gains = Except.ok (10 * Real.logb 10
      (db_to_abs (nfs.headD 0) + ∑ i in Finset.range (nfs.length - 1),
        (db_to_abs (nfs.getD (i + 1) 0) - 1) /
          ∏ j in Finset.range (i + 1), db_to_abs (gains.getD j 0))) := by
  unfold total_noise_figure
  rw [if_neg (by omega : ¬ ¬ 0 < nfs.length),
    if_neg (by omega : ¬ ¬ 0 < gains.length),
    if_neg (not_not_intro hg), if_neg (by omega : ¬ nfs.length = 1)]
  have hlen : nfs.tail.length = gains.length := by
    rw [List.length_tail]; omega
  rw [friisLoop_eq_sum nfs.tail gains (db_to_abs (nfs.headD 0)) 1 hlen]
  simp only [one_mul, tail_getD, List.length_tail]

/-- Witness for C3 at `nfs = [0, 0]`, `gains = [0]`. -/
theorem total_noise_figure_friis_witness :
    2 ≤ ([0, 0] : List ℝ).length ∧
    ([0] : List ℝ).length = ([0, 0] : List ℝ).length - 1 ∧
    total_noise_figure [0, 0] [0] = Except.ok (10 * Real.logb 10
      (db_to_abs (([0, 0] : List ℝ).headD 0) +
        ∑ i in Finset.range (([0, 0] : List ℝ).length - 1),
          (db_to_abs (([0, 0] : List ℝ).getD (i + 1) 0) - 1) /
            ∏ j in Finset.range (i + 1),
              db_to_abs (([0] : List ℝ).getD j 0))) :=
  ⟨by simp, by simp, total_noise_figure_friis [0, 0] [0] (by simp) (by simp)⟩

/-- Python's float `%` with a positive modulus lands in `[0, 360)`. -/
theorem fmod_nonneg_lt (x : ℝ) : 0 ≤ fmod x 360 ∧ fmod x 360 < 360 := by
  unfold fmod
  have h1 := Int.sub_floor_div_mul_nonneg x (show (0 : ℝ) < 360 by norm_num)
  have h2 := Int.sub_floor_div_mul_lt x (show (0 : ℝ) < 360 by norm_num)
  constructor <;> linarith

/-- `degrees ∘ arccos` lands in `[0, 180]`. -/
theorem degrees_arccos_bounds (x : ℝ) :
    0 ≤ degrees (Real.arccos x) ∧ degrees (Real.arccos x) ≤ 180 := by
  unfold degrees
  have h1 := Real.arccos_nonneg x
  have h2 := Real.arccos_le_pi x
  have hpi := Real.pi_pos
  have hfrac : (0 : ℝ) ≤ 180 / π := by positivity
  have hmul : Real.arccos x * (180 / π) ≤ π * (180 / π) :=
    mul_le_mul_of_nonneg_right h2 hfrac
  have hcancel : π * (180 / π) = 180 := by field_simp
  exact ⟨mul_nonneg h1 hfrac, by linarith⟩

/-- C9 (amended): the ellipsoidal azimuth always lies in `[0, 360)`; the
spherical azimuth lies in the closed interval `[0, 360]` (it attains 360 in
the degenerate case `β = 180`, so `[0, 360)` fails for the spherical model). -/
theorem look_angles_azimuth_range (sat_long rx_long rx_lat rx_height sat_alt : ℝ) :
    (0 ≤ (look_angles_ellipsoidal sat_long rx_long rx_lat rx_height sat_alt).2.1 ∧
      (look_angles_ellipsoidal sat_long rx_long rx_lat rx_height sat_alt).2.1 < 360) ∧
    (0 ≤ (look_angles_spherical sat_long rx_long rx_lat sat_alt).2.1 ∧
      (look_angles_spherical sat_long rx_long rx_lat sat_alt).2.1 ≤ 360) := by
  constructor
  · simp only [look_angles_ellipsoidal]
    exact fmod_nonneg_lt _
  · simp only [look_angles_spherical]
    obtain ⟨hb0, hb1⟩ := degrees_arccos_bounds
      (Real.tan (radians rx_lat) / Real.tan (Real.arccos
        (Real.cos (radians rx_lat) * Real.cos (radians sat_long - radians rx_long))))
    split_ifs <;> constructor <;> linarith

/-- C9 counterexample: with the satellite 180° of longitude away
(`sat_long = -135`, `rx_long = 45`) and `rx_lat = 45`, the spherical model's
β is 180 and the NE/NW/SE/SW case split yields azimuth exactly 360, which is
not in `[0, 360)` — even though the computation is defined there
(`tan γ = -1 ≠ 0` and the latitude is not polar). -/
theorem spherical_azimuth_reaches_360 :
    (look_angles_spherical (-135) 45 45 35786e3).2.1 = 360 ∧
    ¬ (look_angles_spherical (-135) 45 45 35786e3).2.1 < 360 := by
  have hpi := Real.pi_pos
  have h45 : radians 45 = π / 4 := by unfold radians; ring
  have hsub : radians (-135) - radians 45 = -π := by unfold radians; ring
  have hcosd : Real.cos (radians (-135) - radians 45) = -1 := by
    rw [hsub, Real.cos_neg, Real.cos_pi]
  have harg : Real.cos (radians 45) * Real.cos (radians (-135) - radians 45)
      = -(Real.sqrt 2 / 2) := by
    rw [hcosd, h45, Real.cos_pi_div_four]; ring
  have hgamma : Real.arccos (Real.cos (radians 45)
      * Real.cos (radians (-135) - radians 45)) = 3 * π / 4 := by
    rw [harg, Real.arccos_neg, ← Real.cos_pi_div_four,
      Real.arccos_cos (by positivity) (by linarith)]
    ring
  have htan34 : Real.tan (3 * π / 4) = -1 := by
    rw [show (3 * π / 4 : ℝ) = π - π / 4 by ring, Real.tan_pi_sub,
      Real.tan_pi_div_four]
  have hratio : Real.tan (radians 45) / Real.tan (Real.arccos
      (Real.cos (radians 45) * Real.cos (radians (-135) - radians 45))) = -1 := by
    rw [hgamma, htan34, h45, Real.tan_pi_div_four]
    norm_num
  have hb : degrees (Real.arccos (Real.tan (radians 45) / Real.tan (Real.arccos
      (Real.cos (radians 45) * Real.cos (radians (-135) - radians 45))))) = 180 := by
    rw [hratio, Real.arccos_neg_one]
    unfold degrees
    field_simp
  have hlat : (0 : ℝ) < radians 45 := by rw [h45]; positivity
  have hlong : radians (-135) < radians 45 := by
    have hm : radians (-135) = -(3 * π / 4) := by unfold radians; ring
    rw [hm, h45]
    linarith
  simp only [look_angles_spherical]
  rw [if_pos hlat, if_pos hlong, hb]
  norm_num

/-- C10: `look_angles` selects the ellipsoidal model exactly for the selector
string "ellipsoidal" and the spherical model for every other string; it
always returns a triple (it raises no invalid-selector error). -/
theorem look_angles_dispatch (a b c alt : ℝ) (s : String)
    (h : s ≠ "ellipsoidal") :
    look_angles a b c alt s = look_angles_spherical a b c alt ∧
    look_angles a b c alt "ellipsoidal" = look_angles_ellipsoidal a b c 0 alt := by
  constructor
  · simp only [look_angles, if_neg h]
  · rfl

/-- Witness for C10 at the selector "spherical". -/
theorem look_angles_dispatch_witness :
    ("spherical" ≠ "ellipsoidal") ∧
    (look_angles 1 2 3 4 "spherical" = look_angles_spherical 1 2 3 4 ∧
    look_angles 1 2 3 4 "ellipsoidal" = look_angles_ellipsoidal 1 2 3 0 4) :=
  ⟨by decide, look_angles_dispatch 1 2 3 4 "spherical" (by decide)⟩

end LinkBudget
